import Mathlib

/-!
# Verification of `simple_landing.py`

A shallow embedding of the indirect-method optimal landing problem
(`simple_landing.py`, Dario Izzo 2016) over the real numbers, together with
theorems settling the specification claims.

Modelling conventions:
* Python floats are idealised as `ℝ`; `math.sqrt` becomes `Real.sqrt`.
* A Python list of fixed length becomes a structure with one field per
  index (the doc comment of each structure records the index mapping).
* A Python float division whose divisor is zero raises `ZeroDivisionError`;
  inside `_pontryagin_minimum_principle` — the only place a claim depends on
  that behaviour — the divisions are guarded and return
  `Except.error EvalError.zeroDivision`.  Elsewhere division is the total
  real division of Lean and every theorem that depends on a quotient carries
  the corresponding nonzero hypothesis.
* A Python `if/elif` chain that can fall through with its result variable
  never assigned raises `NameError` at the subsequent use; this is modelled
  by `Except.error EvalError.nameError`.
* `scipy.integrate.odeint` is external to the repository.  Its output
  (the row `xf[-1]` actually read by `_compute_constraints_impl`, plus the
  `info` dictionary, summarised by a success flag) is modelled by the
  structure `OdeResult`, so that the use the repository makes of that output
  can be analysed exactly.
-/

noncomputable section

namespace SimpleLanding

/-- A 5-component (physical or nondimensional) state.  Index mapping of the
Python list `[x, y, vx, vy, m]`: `0 ↦ x`, `1 ↦ y`, `2 ↦ vx`, `3 ↦ vy`,
`4 ↦ m`. -/
structure PhysState where
  x : ℝ
  y : ℝ
  vx : ℝ
  vy : ℝ
  m : ℝ

/-- The 10-component augmented state threaded through integration.  Index
mapping of the Python list unpacked on line 154,
`x,y,vx,vy,m,lx,ly,lvx,lvy,lm = full_state`: `0 ↦ x`, …, `4 ↦ m`,
`5 ↦ lx`, `6 ↦ ly`, `7 ↦ lvx`, `8 ↦ lvy`, `9 ↦ lm`. -/
structure AugState where
  x : ℝ
  y : ℝ
  vx : ℝ
  vy : ℝ
  m : ℝ
  lx : ℝ
  ly : ℝ
  lvx : ℝ
  lvy : ℝ
  lm : ℝ

/-- The control triple `[u, stheta, ctheta]` returned by
`_pontryagin_minimum_principle`. -/
structure Control where
  u : ℝ
  stheta : ℝ
  ctheta : ℝ

/-- The 6-component equality-constraint vector `ceq` assembled by
`_compute_constraints_impl` (Python list indices `0..5`). -/
structure ConstraintVec where
  c0 : ℝ
  c1 : ℝ
  c2 : ℝ
  c3 : ℝ
  c4 : ℝ
  c5 : ℝ

/-- Runtime errors of the Python evaluation:
`zeroDivision` models `ZeroDivisionError` (float division by `0.0`), and
`nameError` models `NameError` (a result variable left unassigned after an
`if/elif` chain falls through). -/
inductive EvalError where
  | zeroDivision
  | nameError
deriving DecidableEq

/-- The problem object built by `simple_landing.__init__`: raw inputs,
unit constants, scaled parameters, nondimensionalised boundary states,
solver bounds and the two mode flags. -/
structure ProblemConfig where
  state0_input : PhysState
  statet_input : PhysState
  R : ℝ
  V : ℝ
  M : ℝ
  A : ℝ
  T : ℝ
  F : ℝ
  Isp : ℝ
  c : ℝ
  g : ℝ
  G0 : ℝ
  state0 : PhysState
  statet : PhysState
  lb : List ℝ
  ub : List ℝ
  objfun_type : String
  pinpoint : Bool

/-- `_non_dim` (lines 214–221): divide positions by `R`, velocities by `V`,
mass by `M`. -/
def non_dim (cfg : ProblemConfig) (state : PhysState) : PhysState :=
  { x := state.x / cfg.R
    y := state.y / cfg.R
    vx := state.vx / cfg.V
    vy := state.vy / cfg.V
    m := state.m / cfg.M }

/-- `_dim_back` (lines 223–230): multiply positions by `R`, velocities by
`V`, mass by `M`. -/
def dim_back (cfg : ProblemConfig) (state : PhysState) : PhysState :=
  { x := state.x * cfg.R
    y := state.y * cfg.R
    vx := state.vx * cfg.V
    vy := state.vy * cfg.V
    m := state.m * cfg.M }

/-- `simple_landing.__init__` (lines 19–70).  The body performs no
validation whatever: it stores the raw inputs, fixes the unit constants
`R = 1000`, `V = 100`, `M = 10000` and the derived `A = V²/R`, `T = R/V`,
`F = M·A`, scales `Isp`, `c`, `g` and `9.81` by them, nondimensionalises
both boundary states (the field `state0` is `_non_dim` applied with the
just-computed constants, inlined because the config record is still being
built), records the solver bounds of line 64, and stores `objfun_type` and
`pinpoint` unchanged.  There is no failure path. -/
def simple_landing_init (state0 statet : PhysState) (Isp c g : ℝ)
    (objfun_type : String) (pinpoint : Bool) : ProblemConfig :=
  let R : ℝ := 1000
  let V : ℝ := 100
  let M : ℝ := 10000
  let A : ℝ := V * V / R
  let T : ℝ := R / V
  let F : ℝ := M * A
  { state0_input := state0
    statet_input := statet
    R := R
    V := V
    M := M
    A := A
    T := T
    F := F
    Isp := Isp / T
    c := c / F
    g := g / A
    G0 := 9.81 / A
    state0 := { x := state0.x / R, y := state0.y / R, vx := state0.vx / V,
                vy := state0.vy / V, m := state0.m / M }
    statet := { x := statet.x / R, y := statet.y / R, vx := statet.vx / V,
                vy := statet.vy / V, m := statet.m / M }
    lb := [-1, -1, -1, -1, -1, 1e-4]
    ub := [1, 1, 1, 1, 1, 100 / T]
    objfun_type := objfun_type
    pinpoint := pinpoint }

/-- `lv_norm = sqrt(lvx**2 + lvy**2)` (line 176). -/
def lv_norm (fs : AugState) : ℝ :=
  Real.sqrt (fs.lvx ^ 2 + fs.lvy ^ 2)

/-- `_pontryagin_minimum_principle` (lines 170–192).
If `lv_norm = 0` the Python code raises `ZeroDivisionError` on line 177
(`stheta = - lvx / lv_norm`), modelled by the first guard.  Inside the
`"QC"` branch `1./c` and the division by `m` are evaluated in that order and
each raises on a zero divisor; inside the `"MOC"` branch `lv_norm/m`
raises when `m = 0`.  For any other `objfun_type` the chain falls through,
`u` is never assigned, and the `return` raises `NameError`. -/
def pontryagin_minimum_principle (cfg : ProblemConfig) (fs : AugState) :
    Except EvalError Control :=
  let lv := lv_norm fs
  if lv = 0 then
    .error .zeroDivision
  else
    let stheta := - fs.lvx / lv
    let ctheta := - fs.lvy / lv
    if cfg.objfun_type = "QC" then
      if cfg.c = 0 then .error .zeroDivision
      else if fs.m = 0 then .error .zeroDivision
      else
        let u := 1 / cfg.c * (fs.lm + lv * cfg.Isp * cfg.G0 / fs.m)
        .ok { u := max (min u 1) 0, stheta := stheta, ctheta := ctheta }
    else if cfg.objfun_type = "MOC" then
      if fs.m = 0 then .error .zeroDivision
      else
        let S := 1 - fs.lm - lv / fs.m * cfg.Isp * cfg.G0
        .ok { u := if 0 ≤ S then 0 else 1, stheta := stheta, ctheta := ctheta }
    else
      .error .nameError

/-- `_cost` (lines 124–135).  The `state` argument is unused by the source
as well.  For an `objfun_type` other than `"QC"`/`"MOC"` the variable
`retval` is never assigned and `return retval` raises `NameError`. -/
def cost (cfg : ProblemConfig) (state : PhysState) (controls : Control) :
    Except EvalError ℝ :=
  if cfg.objfun_type = "QC" then
    .ok (cfg.c ^ 2 / cfg.Isp / cfg.G0 * controls.u ^ 2)
  else if cfg.objfun_type = "MOC" then
    .ok (cfg.c / cfg.Isp / cfg.G0 * controls.u)
  else
    .error .nameError

/-- `_eom_state` (lines 137–150): the list `[dx, dy, dvx, dvy, dm]`. -/
def eom_state (cfg : ProblemConfig) (state : PhysState) (controls : Control) :
    List ℝ :=
  [state.vx,
   state.vy,
   cfg.c * controls.u / state.m * controls.stheta,
   cfg.c * controls.u / state.m * controls.ctheta - cfg.g,
   -(cfg.c * controls.u / cfg.Isp / cfg.G0)]

/-- `_eom_costate` (lines 152–168): the list
`[dlx, dly, dlvx, dlvy, dlm]` with
`lvdotitheta = lvx*stheta + lvy*ctheta`. -/
def eom_costate (cfg : ProblemConfig) (fs : AugState) (controls : Control) :
    List ℝ :=
  let lvdotitheta := fs.lvx * controls.stheta + fs.lvy * controls.ctheta
  [0, 0, - fs.lx, - fs.ly, cfg.c * controls.u / fs.m ^ 2 * lvdotitheta]

/-- `_hamiltonian` (lines 104–122): apply the minimum principle, form the
state right-hand side, accumulate `H += l * f` over
`zip(costate, f_vett)` starting from `0.`, then add the running cost.
An error raised by the control law (or the cost chain) propagates. -/
def hamiltonian (cfg : ProblemConfig) (fs : AugState) : Except EvalError ℝ :=
  match pontryagin_minimum_principle cfg fs with
  | .error e => .error e
  | .ok controls =>
    let state : PhysState := { x := fs.x, y := fs.y, vx := fs.vx,
                               vy := fs.vy, m := fs.m }
    let costate : List ℝ := [fs.lx, fs.ly, fs.lvx, fs.lvy, fs.lm]
    let f_vett := eom_state cfg state controls
    let H := (List.zip costate f_vett).foldl (fun h p => h + p.1 * p.2) 0
    match cost cfg state controls with
    | .error e => .error e
    | .ok rc => .ok (H + rc)

/-- The outcome of `_shoot` (lines 204–207) as consumed by
`_compute_constraints_impl`: `odeint` is external, and the only parts of
its output the repository reads are the final row `xf[-1]` (`last`) and —
in principle — the `info` dictionary, summarised here by whether the
integration succeeded (`success`). -/
structure OdeResult where
  last : AugState
  success : Bool

/-- `_compute_constraints_impl` (lines 76–102).  The `info` half of the
`_shoot` result is bound on line 78 and never inspected; the residual
vector is assembled from `xf[-1]` alone:
`ceq[1..3]` from components `1..3` (that is `y`, `vx`, `vy`) against the
nondimensional target, `ceq[4] = xf[-1][9]*100` (the mass costate `lm`),
`ceq[0]` from `x` (pinpoint) or `lx` (free), and
`ceq[5] = _hamiltonian(xf[-1])*100`.  An error raised while evaluating the
Hamiltonian propagates out of the evaluation. -/
def compute_constraints_impl (cfg : ProblemConfig) (shot : OdeResult) :
    Except EvalError ConstraintVec :=
  let xf := shot.last
  match hamiltonian cfg xf with
  | .error e => .error e
  | .ok H =>
    .ok { c0 := if cfg.pinpoint then (xf.x - cfg.statet.x) * 100
                else xf.lx * 100
          c1 := (xf.y - cfg.statet.y) * 100
          c2 := (xf.vx - cfg.statet.vx) * 100
          c3 := (xf.vy - cfg.statet.vy) * 100
          c4 := xf.lm * 100
          c5 := H * 100 }

/-! ## Concrete evaluation points

A fully concrete configuration and augmented state, used to evaluate the
shooting machinery on explicit numbers.  The costate pair `(lvx, lvy) =
(3, 4)` makes `lv_norm = 5` exactly. -/

/-- A concrete configuration: quadratic control, free (non-pinpoint)
landing, unit scaled parameters, zero target. -/
def cfgA : ProblemConfig :=
  { state0_input := ⟨0, 0, 0, 0, 0⟩
    statet_input := ⟨0, 0, 0, 0, 0⟩
    R := 1000, V := 100, M := 10000, A := 10, T := 10, F := 100000
    Isp := 1, c := 1, g := 1, G0 := 1
    state0 := ⟨0, 0, 0, 0, 0⟩
    statet := ⟨0, 0, 0, 0, 0⟩
    lb := [], ub := []
    objfun_type := "QC"
    pinpoint := false }

/-- A concrete augmented state with `lv_norm = 5`. -/
def augA : AugState :=
  ⟨1, 2, 3, 4, 1, 5, 6, 3, 4, 0⟩

/-- The constraint vector `_compute_constraints_impl` assembles from
`augA` under `cfgA`. -/
def vA : ConstraintVec :=
  ⟨500, 200, 300, 400, 0, 3100⟩

/-- The mass-optimal variant of `cfgA`. -/
def cfgB : ProblemConfig :=
  { cfgA with objfun_type := "MOC" }

/-- The control triple the minimum principle returns at `augA` under
`cfgA`. -/
def ctrlA : Control :=
  ⟨1, -3 / 5, -4 / 5⟩

/-- An augmented state with both velocity costates zero, hence
`lv_norm = 0`: the singular configuration. -/
def augZero : AugState :=
  ⟨0, 0, 0, 0, 1, 0, 0, 0, 0, 0⟩

/-- The problem object built from a nonphysical configuration: negative
specific impulse, negative maximum thrust, negative target mass. -/
def cfg9 : ProblemConfig :=
  simple_landing_init ⟨0, 1000, 20, -5, 10000⟩ ⟨0, 0, 0, 0, -1⟩
    (-311) (-44000) 1.6229 "QC" false

/-- A problem object whose objective-type string is neither `"QC"` nor
`"MOC"`. -/
def cfgX : ProblemConfig :=
  simple_landing_init ⟨0, 0, 0, 0, 0⟩ ⟨0, 0, 0, 0, 0⟩ 1 1 1 "XX" false

lemma lv_norm_augA : lv_norm augA = 5 := by
  have h : (augA.lvx ^ 2 + augA.lvy ^ 2 : ℝ) = 5 ^ 2 := by
    norm_num [augA]
  rw [lv_norm, h, Real.sqrt_sq (by norm_num : (0 : ℝ) ≤ 5)]

lemma pmp_cfgA :
    pontryagin_minimum_principle cfgA augA =
      Except.ok { u := 1, stheta := -3 / 5, ctheta := -4 / 5 } := by
  simp only [pontryagin_minimum_principle, lv_norm_augA]
  norm_num [cfgA, augA, min_def, max_def]

lemma hamiltonian_cfgA : hamiltonian cfgA augA = Except.ok 31 := by
  rw [hamiltonian, pmp_cfgA]
  simp [eom_state, cost, cfgA, augA, List.zip, List.foldl]
  norm_num

lemma constraints_cfgA (b : Bool) :
    compute_constraints_impl cfgA ⟨augA, b⟩ = Except.ok vA := by
  rw [compute_constraints_impl]
  simp only [hamiltonian_cfgA]
  simp [cfgA, augA, vA]
  norm_num

/-! ## Claims -/

/-- C1, counterexample.  The claim states that `c[1]` is the `vx` residual,
`c[2]` the `vy` residual and `c[3]` the mass residual.  On the code
(`_compute_constraints_impl`, lines 83–85) `ceq[1]`, `ceq[2]`, `ceq[3]` are
built from components `1`, `2`, `3` of the final state — that is `y`, `vx`,
`vy` — so at the concrete final state `augA` (with `vx = 3`, `m = 1`, zero
target) the assembled vector has `c1 = 200 ≠ 100·(vx − target.vx) = 300`
and `c3 = 400 ≠ 100·(m − target.m) = 100`. -/
theorem C1_counterexample :
    compute_constraints_impl cfgA ⟨augA, true⟩ = Except.ok vA ∧
    vA.c1 ≠ 100 * (augA.vx - cfgA.statet.vx) ∧
    vA.c3 ≠ 100 * (augA.m - cfgA.statet.m) := by
  refine ⟨constraints_cfgA true, ?_, ?_⟩ <;> norm_num [vA, augA, cfgA]

/-- C1, amended.  For every shooting result whose propagation succeeded,
the assembled constraint vector has `c1 = 100·(yf − target.y)`,
`c2 = 100·(vxf − target.vx)` and `c3 = 100·(vyf − target.vy)`: the three
kinematic residuals sit one index later than the claim says, and no
component constrains the final mass (the mass is free; only its costate
appears, in `c4`). -/
theorem C1_amended_constraints (cfg : ProblemConfig) (shot : OdeResult)
    (v : ConstraintVec) (hs : shot.success = true)
    (h : compute_constraints_impl cfg shot = Except.ok v) :
    v.c1 = 100 * (shot.last.y - cfg.statet.y) ∧
    v.c2 = 100 * (shot.last.vx - cfg.statet.vx) ∧
    v.c3 = 100 * (shot.last.vy - cfg.statet.vy) := by
  simp only [compute_constraints_impl] at h
  cases hH : hamiltonian cfg shot.last with
  | error e =>
    rw [hH] at h
    exact absurd h (by simp)
  | ok H =>
    rw [hH] at h
    simp only [Except.ok.injEq] at h
    subst h
    refine ⟨by ring, by ring, by ring⟩

/-- C1, witness: the amended statement evaluated at the concrete shooting
result built from `augA` under `cfgA`. -/
theorem C1_witness :
    vA.c1 = 100 * (augA.y - cfgA.statet.y) ∧
    vA.c2 = 100 * (augA.vx - cfgA.statet.vx) ∧
    vA.c3 = 100 * (augA.vy - cfgA.statet.vy) :=
  C1_amended_constraints cfgA ⟨augA, true⟩ vA rfl (constraints_cfgA true)

/-- C2.  For every shooting result whose propagation succeeded and whose
constraint assembly returned a vector `v`: `c4` is `100` times the final
mass costate, `c0` is `100·(xf − target.x)` in pinpoint mode and `100·λx`
otherwise, and the Hamiltonian evaluated at the final augmented state is
exactly `c5 / 100`, i.e. `c5 = 100·H(xf)`. -/
theorem C2_transversality_constraints (cfg : ProblemConfig)
    (shot : OdeResult) (v : ConstraintVec) (hs : shot.success = true)
    (h : compute_constraints_impl cfg shot = Except.ok v) :
    v.c4 = 100 * shot.last.lm ∧
    v.c0 = (if cfg.pinpoint then 100 * (shot.last.x - cfg.statet.x)
            else 100 * shot.last.lx) ∧
    hamiltonian cfg shot.last = Except.ok (v.c5 / 100) := by
  simp only [compute_constraints_impl] at h
  cases hH : hamiltonian cfg shot.last with
  | error e =>
    rw [hH] at h
    exact absurd h (by simp)
  | ok H =>
    rw [hH] at h
    simp only [Except.ok.injEq] at h
    subst h
    refine ⟨by ring, ?_, ?_⟩
    · split <;> ring
    · simp only [Except.ok.injEq]
      field_simp

/-- C2, witness: the statement evaluated at the concrete shooting result
built from `augA` under `cfgA` (free landing, so `c0 = 100·λx = 500`, and
`c5 = 3100 = 100·31` with `H(augA) = 31`). -/
theorem C2_witness :
    vA.c4 = 100 * augA.lm ∧
    vA.c0 = (if cfgA.pinpoint then 100 * (augA.x - cfgA.statet.x)
             else 100 * augA.lx) ∧
    hamiltonian cfgA augA = Except.ok (vA.c5 / 100) :=
  C2_transversality_constraints cfgA ⟨augA, true⟩ vA rfl (constraints_cfgA true)

/-- C3, counterexample.  The claim states that a failed propagation aborts
the shooting evaluation with a failure result distinguishable from a valid
constraint vector.  In the code (line 78) the `info` half of the `_shoot`
output is bound and never inspected: at the concrete final row `augA`, the
evaluation with the failure flag set still returns the ordinary residual
vector, identical to the one returned with the success flag set. -/
theorem C3_counterexample :
    compute_constraints_impl cfgA ⟨augA, false⟩ = Except.ok vA ∧
    compute_constraints_impl cfgA ⟨augA, false⟩ =
      compute_constraints_impl cfgA ⟨augA, true⟩ := by
  refine ⟨constraints_cfgA false, ?_⟩
  rw [constraints_cfgA false, constraints_cfgA true]

/-- C3, amended.  The shooting evaluation ignores the integration status
entirely: the constraint assembly depends only on the final integrated row,
so a failed propagation produces exactly the same result as a successful
one with the same final row — no distinguishable failure result exists. -/
theorem C3_flag_ignored (cfg : ProblemConfig) (xfrow : AugState)
    (b b' : Bool) :
    compute_constraints_impl cfg ⟨xfrow, b⟩ =
      compute_constraints_impl cfg ⟨xfrow, b'⟩ := rfl

/-- C4.  Under the quadratic-control objective, for every augmented state
with `lv_norm > 0` and `m > 0` (and the positive maximum thrust `c` any
valid configuration carries), the control law returns the throttle
`clamp((λm + lv_norm·Isp·g0/m)/c, 0, 1)` — written `max (min · 1) 0`, the
order the code applies on lines 183–184 — together with the direction
`(−λvx/lv_norm, −λvy/lv_norm)`, and that throttle lies in `[0, 1]`. -/
theorem C4_quadratic_control_clamp (cfg : ProblemConfig) (fs : AugState)
    (hobj : cfg.objfun_type = "QC") (hc : 0 < cfg.c)
    (hlv : 0 < lv_norm fs) (hm : 0 < fs.m) :
    pontryagin_minimum_principle cfg fs =
      Except.ok
        { u := max (min ((fs.lm + lv_norm fs * cfg.Isp * cfg.G0 / fs.m) / cfg.c) 1) 0
          stheta := - fs.lvx / lv_norm fs
          ctheta := - fs.lvy / lv_norm fs } ∧
    0 ≤ max (min ((fs.lm + lv_norm fs * cfg.Isp * cfg.G0 / fs.m) / cfg.c) 1) 0 ∧
    max (min ((fs.lm + lv_norm fs * cfg.Isp * cfg.G0 / fs.m) / cfg.c) 1) 0 ≤ 1 := by
  refine ⟨?_, le_max_right _ 0, max_le (min_le_right _ 1) zero_le_one⟩
  simp only [pontryagin_minimum_principle, hobj]
  simp [ne_of_gt hlv, ne_of_gt hc, ne_of_gt hm, inv_mul_eq_div]

/-- C4, witness: the statement evaluated at `cfgA` (quadratic control,
`c = 1`) and the concrete state `augA` (where `lv_norm = 5 > 0` and
`m = 1 > 0`). -/
theorem C4_witness :
    pontryagin_minimum_principle cfgA augA =
      Except.ok
        { u := max (min ((augA.lm + lv_norm augA * cfgA.Isp * cfgA.G0 / augA.m) / cfgA.c) 1) 0
          stheta := - augA.lvx / lv_norm augA
          ctheta := - augA.lvy / lv_norm augA } ∧
    0 ≤ max (min ((augA.lm + lv_norm augA * cfgA.Isp * cfgA.G0 / augA.m) / cfgA.c) 1) 0 ∧
    max (min ((augA.lm + lv_norm augA * cfgA.Isp * cfgA.G0 / augA.m) / cfgA.c) 1) 0 ≤ 1 :=
  C4_quadratic_control_clamp cfgA augA rfl (by norm_num [cfgA])
    (by rw [lv_norm_augA]; norm_num) (by norm_num [augA])

/-- C5.  Under the mass-optimal objective, for every augmented state with
`lv_norm > 0` and `m > 0`, the control law returns the bang-bang throttle:
with switching function `S = 1 − λm − (lv_norm/m)·Isp·g0`, the throttle is
`0` when `S ≥ 0` and `1` when `S < 0`, hence always exactly `0` or `1` and
sign-consistent with `S`. -/
theorem C5_mass_optimal_bang_bang (cfg : ProblemConfig) (fs : AugState)
    (hobj : cfg.objfun_type = "MOC") (hlv : 0 < lv_norm fs) (hm : 0 < fs.m) :
    pontryagin_minimum_principle cfg fs =
      Except.ok
        { u := if 0 ≤ 1 - fs.lm - lv_norm fs / fs.m * cfg.Isp * cfg.G0 then 0 else 1
          stheta := - fs.lvx / lv_norm fs
          ctheta := - fs.lvy / lv_norm fs } ∧
    ((if 0 ≤ 1 - fs.lm - lv_norm fs / fs.m * cfg.Isp * cfg.G0 then (0 : ℝ) else 1) = 0 ∨
      (if 0 ≤ 1 - fs.lm - lv_norm fs / fs.m * cfg.Isp * cfg.G0 then (0 : ℝ) else 1) = 1) ∧
    (0 ≤ 1 - fs.lm - lv_norm fs / fs.m * cfg.Isp * cfg.G0 →
      (if 0 ≤ 1 - fs.lm - lv_norm fs / fs.m * cfg.Isp * cfg.G0 then (0 : ℝ) else 1) = 0) ∧
    (1 - fs.lm - lv_norm fs / fs.m * cfg.Isp * cfg.G0 < 0 →
      (if 0 ≤ 1 - fs.lm - lv_norm fs / fs.m * cfg.Isp * cfg.G0 then (0 : ℝ) else 1) = 1) := by
  refine ⟨?_, ?_, fun h => if_pos h, fun h => if_neg (not_le.mpr h)⟩
  · simp only [pontryagin_minimum_principle, hobj]
    simp [ne_of_gt hlv, ne_of_gt hm]
  · by_cases h : 0 ≤ 1 - fs.lm - lv_norm fs / fs.m * cfg.Isp * cfg.G0
    · exact Or.inl (if_pos h)
    · exact Or.inr (if_neg h)

/-- C5, witness: the statement evaluated at `cfgB` (mass-optimal variant)
and the concrete state `augA`, where `S = 1 − 0 − 5·1·1 = −4 < 0`. -/
theorem C5_witness :
    pontryagin_minimum_principle cfgB augA =
      Except.ok
        { u := if 0 ≤ 1 - augA.lm - lv_norm augA / augA.m * cfgB.Isp * cfgB.G0 then 0 else 1
          stheta := - augA.lvx / lv_norm augA
          ctheta := - augA.lvy / lv_norm augA } ∧
    ((if 0 ≤ 1 - augA.lm - lv_norm augA / augA.m * cfgB.Isp * cfgB.G0 then (0 : ℝ) else 1) = 0 ∨
      (if 0 ≤ 1 - augA.lm - lv_norm augA / augA.m * cfgB.Isp * cfgB.G0 then (0 : ℝ) else 1) = 1) ∧
    (0 ≤ 1 - augA.lm - lv_norm augA / augA.m * cfgB.Isp * cfgB.G0 →
      (if 0 ≤ 1 - augA.lm - lv_norm augA / augA.m * cfgB.Isp * cfgB.G0 then (0 : ℝ) else 1) = 0) ∧
    (1 - augA.lm - lv_norm augA / augA.m * cfgB.Isp * cfgB.G0 < 0 →
      (if 0 ≤ 1 - augA.lm - lv_norm augA / augA.m * cfgB.Isp * cfgB.G0 then (0 : ℝ) else 1) = 1) :=
  C5_mass_optimal_bang_bang cfgB augA rfl
    (by rw [lv_norm_augA]; norm_num) (by norm_num [augA])

/-- C6.  For every augmented state with `lv_norm = 0`, the control law
evaluation is an explicit error — the singular configuration surfaces as
the Python `ZeroDivisionError` raised by `stheta = -lvx/lv_norm` on
line 177 — and no control triple (in particular no NaN-carrying one) is
ever returned. -/
theorem C6_singular_control_error (cfg : ProblemConfig) (fs : AugState)
    (h : lv_norm fs = 0) :
    pontryagin_minimum_principle cfg fs = Except.error EvalError.zeroDivision := by
  simp only [pontryagin_minimum_principle, h]
  simp

/-- C6, witness: the statement evaluated at the concrete singular state
`augZero` (both velocity costates zero). -/
theorem C6_witness :
    pontryagin_minimum_principle cfgA augZero =
      Except.error EvalError.zeroDivision :=
  C6_singular_control_error cfgA augZero
    (by rw [lv_norm]; norm_num [augZero, Real.sqrt_zero])

/-- C7.  For every augmented state and control triple with `m ≠ 0`, the
costate right-hand side is
`[0, 0, −λx, −λy, c·u·(λvx·sinθ + λvy·cosθ)/m²]`; the first two components
being identically zero is exactly what makes `λx, λy` constants of motion
along any propagated trajectory. -/
theorem C7_costate_derivatives (cfg : ProblemConfig) (fs : AugState)
    (controls : Control) (hm : fs.m ≠ 0) :
    eom_costate cfg fs controls =
      [0, 0, - fs.lx, - fs.ly,
        cfg.c * controls.u *
          (fs.lvx * controls.stheta + fs.lvy * controls.ctheta) / fs.m ^ 2] := by
  simp only [eom_costate, div_mul_eq_mul_div]

/-- C7, witness: the statement evaluated at `cfgA`, `augA` and the
concrete control triple `ctrlA` (where `m = 1 ≠ 0`). -/
theorem C7_witness :
    eom_costate cfgA augA ctrlA =
      [0, 0, - augA.lx, - augA.ly,
        cfgA.c * ctrlA.u *
          (augA.lvx * ctrlA.stheta + augA.lvy * ctrlA.ctheta) / augA.m ^ 2] :=
  C7_costate_derivatives cfgA augA ctrlA (by norm_num [augA])

/-- C8.  For every constructed problem and every physical 5-vector state,
redimensionalizing the nondimensionalized state returns the state exactly:
`_non_dim` divides positions by `R = 1000`, velocities by `V = 100` and the
mass by `M = 10000`, `_dim_back` multiplies by the same constants, and over
the exact reals the composition is the identity. -/
theorem C8_unit_roundtrip (state0 statet : PhysState) (Isp c g : ℝ)
    (objfun_type : String) (pinpoint : Bool) (s : PhysState) :
    dim_back (simple_landing_init state0 statet Isp c g objfun_type pinpoint)
      (non_dim (simple_landing_init state0 statet Isp c g objfun_type pinpoint) s)
      = s := by
  obtain ⟨sx, sy, svx, svy, sm⟩ := s
  simp only [simple_landing_init, non_dim, dim_back, PhysState.mk.injEq]
  norm_num

/-- C9, counterexample.  The claim states that a nonphysical configuration
(`Isp ≤ 0`, maximum thrust `≤ 0`, or a negative mass) makes construction
fail with an `InvalidConfig` error.  The constructor of the source
(lines 19–70) contains no validation and no failure path at all: called
with `Isp = −311`, thrust `c = −44000` and target mass `−1`, it produces a
usable problem object whose scaled parameters are simply the scaled
nonphysical inputs. -/
theorem C9_counterexample :
    cfg9.Isp = -31.1 ∧ cfg9.c = -0.44 ∧ cfg9.statet.m = -0.0001 ∧
    cfg9.objfun_type = "QC" ∧ cfg9.pinpoint = false := by
  refine ⟨?_, ?_, ?_, rfl, rfl⟩ <;> norm_num [cfg9, simple_landing_init]

/-- C9, amended.  Construction never fails and performs no validation:
for every input — including nonpositive `Isp`, nonpositive thrust and
negative masses — it returns a problem object whose parameters are the
inputs scaled by the fixed unit constants (`T = 10`, `F = 100000`,
`A = 10`, `M = 10000`) with the objective string and pinpoint flag stored
unchanged. -/
theorem C9_no_validation (state0 statet : PhysState) (Isp c g : ℝ)
    (objfun_type : String) (pinpoint : Bool) :
    (simple_landing_init state0 statet Isp c g objfun_type pinpoint).Isp
        = Isp / 10 ∧
    (simple_landing_init state0 statet Isp c g objfun_type pinpoint).c
        = c / 100000 ∧
    (simple_landing_init state0 statet Isp c g objfun_type pinpoint).g
        = g / 10 ∧
    (simple_landing_init state0 statet Isp c g objfun_type pinpoint).G0
        = 0.981 ∧
    (simple_landing_init state0 statet Isp c g objfun_type pinpoint).statet.m
        = statet.m / 10000 ∧
    (simple_landing_init state0 statet Isp c g objfun_type pinpoint).objfun_type
        = objfun_type ∧
    (simple_landing_init state0 statet Isp c g objfun_type pinpoint).pinpoint
        = pinpoint := by
  refine ⟨?_, ?_, ?_, ?_, ?_, rfl, rfl⟩ <;> norm_num [simple_landing_init]

/-- C10.  For every objective-type string other than `"QC"` and `"MOC"`,
construction succeeds and stores the string unvalidated, the control law
falls through the whole `if/elif` chain whenever it gets past the
direction computation (`lv_norm ≠ 0`) and fails with the unbound-variable
`NameError`, and every running-cost evaluation fails with the same
unbound-variable error — never a typed configuration error, never a
defined control. -/
theorem C10_unknown_objective (objfun_type : String)
    (hq : objfun_type ≠ "QC") (hmoc : objfun_type ≠ "MOC")
    (state0 statet : PhysState) (Isp c g : ℝ) (pinpoint : Bool) :
    (simple_landing_init state0 statet Isp c g objfun_type pinpoint).objfun_type
        = objfun_type ∧
    (∀ fs : AugState, lv_norm fs ≠ 0 →
      pontryagin_minimum_principle
          (simple_landing_init state0 statet Isp c g objfun_type pinpoint) fs
        = Except.error EvalError.nameError) ∧
    (∀ (s : PhysState) (controls : Control),
      cost (simple_landing_init state0 statet Isp c g objfun_type pinpoint)
          s controls
        = Except.error EvalError.nameError) := by
  refine ⟨rfl, ?_, ?_⟩
  · intro fs hlv
    simp only [pontryagin_minimum_principle, simple_landing_init]
    simp [hlv, hq, hmoc]
  · intro s controls
    simp only [cost, simple_landing_init]
    simp [hq, hmoc]

/-- C10, witness: the statement evaluated at the concrete problem object
`cfgX` (objective string `"XX"`), the state `augA` (nonsingular) and a
concrete running-cost argument pair. -/
theorem C10_witness :
    cfgX.objfun_type = "XX" ∧
    pontryagin_minimum_principle cfgX augA = Except.error EvalError.nameError ∧
    cost cfgX ⟨0, 0, 0, 0, 0⟩ ctrlA = Except.error EvalError.nameError := by
  obtain ⟨h1, h2, h3⟩ :=
    C10_unknown_objective "XX" (by decide) (by decide)
      ⟨0, 0, 0, 0, 0⟩ ⟨0, 0, 0, 0, 0⟩ 1 1 1 false
  exact ⟨h1, h2 augA (by rw [lv_norm_augA]; norm_num), h3 ⟨0, 0, 0, 0, 0⟩ ctrlA⟩

end SimpleLanding

end
